import Mathlib

/-!
Shallow embedding of the client-side session and live-state synchronization
layer: the auth context (SessionManager), the three LiveQuery hooks
(stats, activity, challenges) and the stats writer. Remote calls are modelled
by passing their observed outcome as an explicit argument; UI state updates
become pure state-transition functions; thrown errors and UI alerts are
recorded in explicit result fields.
-/

namespace Combined

/-- Resolved shape of a remote query reply: a nullable data payload or an
error object carrying a message (the destructured data/error pair). -/
inductive QueryResult (α : Type) where
  | ok (data : Option α)
  | err (msg : String)
deriving DecidableEq, Repr

/-- A remote call as observed by code wrapping it in try/catch: either the
awaited promise resolves to a reply, or it throws (some msg when the thrown
value is an Error carrying that message, none for a non-Error value). -/
inductive Completion (α : Type) where
  | res (r : QueryResult α)
  | thrown (err : Option String)
deriving DecidableEq, Repr

/-! ## Stats LiveQuery hook (useUserStats) -/

/-- The five stats fields of a user_stats row as the client exposes them. -/
structure UserStats where
  portfolio_views : Int
  followers : Int
  rating : ℚ
  loyalty_points : Int
  projects_completed : Int
deriving DecidableEq, Repr

/-- The default all-zero stats record used as fallback. -/
def zeroStats : UserStats := ⟨0, 0, 0, 0, 0⟩

/-- A raw remote user_stats row: every field may be absent/null. -/
structure StatsRow where
  portfolio_views : Option Int
  followers : Option Int
  rating : Option ℚ
  loyalty_points : Option Int
  projects_completed : Option Int
deriving DecidableEq, Repr

/-- Field mapping applied by useUserStats to a remote row: each field is
defaulted to zero when absent (the JS value-or-zero idiom). -/
def mapStatsRow (r : StatsRow) : UserStats :=
  ⟨r.portfolio_views.getD 0, r.followers.getD 0, r.rating.getD 0,
   r.loyalty_points.getD 0, r.projects_completed.getD 0⟩

/-- Local state of the useUserStats hook plus whether its realtime channel is
still subscribed. -/
structure StatsHookState where
  stats : Option UserStats
  loading : Bool
  error : Option String
  subscribed : Bool
deriving DecidableEq, Repr

/-- Initial hook state for a signed-in user, once the channel subscription is
established and before the initial fetch completes. -/
def statsInit : StatsHookState := ⟨none, true, none, true⟩

/-- Completion of the initial fetch in useUserStats.fetchUserStats: a remote
error sets default zero stats and clears the error; data populates the mapped
stats; a thrown error sets default zero stats; finally loading is cleared. -/
def deliverStatsFetch (st : StatsHookState) (c : Completion StatsRow) : StatsHookState :=
  match c with
  | .res (.err _) => { st with stats := some zeroStats, error := none, loading := false }
  | .res (.ok (some row)) => { st with stats := some (mapStatsRow row), loading := false }
  | .res (.ok none) => { st with loading := false }
  | .thrown _ => { st with stats := some zeroStats, loading := false }

/-- Delivery of a stats subscription event: the channel only delivers while
subscribed; the handler replaces stats with the mapped new row when present. -/
def deliverStatsEvent (st : StatsHookState) (payload : Option StatsRow) : StatsHookState :=
  if st.subscribed then
    match payload with
    | some row => { st with stats := some (mapStatsRow row) }
    | none => st
  else st

/-- Effect cleanup of useUserStats: channel.unsubscribe() only. -/
def statsTeardown (st : StatsHookState) : StatsHookState :=
  { st with subscribed := false }

/-! ## Activity LiveQuery hook (useUserActivity) -/

/-- The four activity kinds of a user_activity row. -/
inductive ActionType where
  | update
  | follower
  | approval
  | achievement
deriving DecidableEq, Repr

/-- A user_activity row as the client exposes it. -/
structure UserActivity where
  id : String
  action : String
  action_type : ActionType
  created_at : String
deriving DecidableEq, Repr

/-- JS Array.prototype.slice(0, e): a negative end counts from the end of the
array, and the result is clamped to the array bounds. -/
def jsSliceToEnd (l : List α) (e : Int) : List α :=
  if e < 0 then l.take (l.length + e).toNat else l.take e.toNat

/-- The INSERT handler body of useUserActivity: prepend the new item to the
previous list sliced to its first limit minus one elements. -/
def activityInsert (limit : Int) (prev : List UserActivity) (item : UserActivity) :
    List UserActivity :=
  item :: jsSliceToEnd prev (limit - 1)

/-- Local state of the useUserActivity hook plus whether its realtime channel
is still subscribed. -/
structure ActivityHookState where
  activities : List UserActivity
  loading : Bool
  error : Option String
  subscribed : Bool
deriving DecidableEq, Repr

/-- Completion of the initial fetch in useUserActivity.fetchUserActivity: a
remote error sets the empty list and clears the error; data populates the
list; a thrown error sets the empty list; finally loading is cleared. -/
def deliverActivityFetch (st : ActivityHookState) (c : Completion (List UserActivity)) :
    ActivityHookState :=
  match c with
  | .res (.err _) => { st with activities := [], error := none, loading := false }
  | .res (.ok (some data)) => { st with activities := data, loading := false }
  | .res (.ok none) => { st with loading := false }
  | .thrown _ => { st with activities := [], loading := false }

/-- Delivery of an activity INSERT subscription event: the channel only
delivers while subscribed; the handler prepends the new row when present. -/
def deliverActivityEvent (limit : Int) (st : ActivityHookState)
    (payload : Option UserActivity) : ActivityHookState :=
  if st.subscribed then
    match payload with
    | some item => { st with activities := activityInsert limit st.activities item }
    | none => st
  else st

/-- Effect cleanup of useUserActivity: channel.unsubscribe() only. -/
def activityTeardown (st : ActivityHookState) : ActivityHookState :=
  { st with subscribed := false }

/-! ## Challenges LiveQuery hook (useChallenges) -/

/-- Status of a challenges row. -/
inductive ChStatus where
  | active
  | completed
  | expired
deriving DecidableEq, Repr

/-- A challenges table row; user_id is the scoping column the client filters
on even though the exposed Challenge record omits it. -/
structure ChallengeRow where
  id : String
  title : String
  description : Option String
  progress : Int
  reward : String
  status : ChStatus
  user_id : String
deriving DecidableEq, Repr

/-- The remote select issued by useChallenges.fetchChallenges, per the
RemoteStore query interface: filter on user_id, filter on status active,
limit three. -/
def selectChallenges (db : List ChallengeRow) (uid : String) : List ChallengeRow :=
  ((db.filter fun r => r.user_id == uid).filter fun r => r.status == ChStatus.active).take 3

/-- Local state of the useChallenges hook plus whether its realtime channel
is still subscribed. -/
structure ChallengesHookState where
  challenges : List ChallengeRow
  loading : Bool
  error : Option String
  subscribed : Bool
deriving DecidableEq, Repr

/-- Completion of the fetch in useChallenges.fetchChallenges: a remote error
sets the empty list and clears the error; data populates the list; a thrown
error sets the empty list; finally loading is cleared. -/
def deliverChallengesFetch (st : ChallengesHookState) (c : Completion (List ChallengeRow)) :
    ChallengesHookState :=
  match c with
  | .res (.err _) => { st with challenges := [], error := none, loading := false }
  | .res (.ok (some data)) => { st with challenges := data, loading := false }
  | .res (.ok none) => { st with loading := false }
  | .thrown _ => { st with challenges := [], loading := false }

/-- The kinds of change events a challenges subscription can deliver. -/
inductive ChEvent where
  | insert
  | update
  | delete
deriving DecidableEq, Repr

/-- An action a hook callback can request from its effect environment. -/
inductive HookAction where
  | refetch
deriving DecidableEq, Repr

/-- The useChallenges subscription callback: for any event it requests a
single re-fetch and touches no state. -/
def challengesOnEvent (_ : ChEvent) : List HookAction :=
  [HookAction.refetch]

/-- Delivery of a challenges subscription event: the channel only delivers
while subscribed; delivery yields the callback requests and leaves state
untouched. -/
def deliverChallengesEvent (st : ChallengesHookState) (ev : ChEvent) :
    ChallengesHookState × List HookAction :=
  if st.subscribed then (st, challengesOnEvent ev) else (st, [])

/-- Effect cleanup of useChallenges: channel.unsubscribe() only. -/
def challengesTeardown (st : ChallengesHookState) : ChallengesHookState :=
  { st with subscribed := false }

/-! ## SessionManager (AuthContext) -/

/-- Loyalty tier of a profile. -/
inductive Tier where
  | free
  | premium
  | professional
  | elite
deriving DecidableEq, Repr

/-- The creator/member enumeration shared by the role and account_type
columns. -/
inductive Role where
  | creator
  | member
deriving DecidableEq, Repr

/-- A row of the profiles table. -/
structure Profile where
  id : String
  name : String
  tier : Tier
  loyalty_points : Int
  profile_image : Option String
  account_type : Role
  role : Role
  is_verified : Bool
  joined_date : String
deriving DecidableEq, Repr

/-- The application user: a profile together with the auth email. -/
structure AppUser extends Profile where
  email : String
deriving DecidableEq, Repr

/-- Local state owned by the auth provider. -/
structure AuthState where
  user : Option AppUser
  loading : Bool
deriving DecidableEq, Repr

/-- The getProfile helper: on a remote error or a missing row it returns
null; otherwise the profile row extended with the email. -/
def getProfile (email : String) (remote : QueryResult Profile) : Option AppUser :=
  match remote with
  | .err _ => none
  | .ok (some p) => some ⟨p, email⟩
  | .ok none => none

/-- A partial profile record: every column may be present or absent
(the argument type of updateUser). -/
structure ProfilePatch where
  id : Option String
  name : Option String
  tier : Option Tier
  loyalty_points : Option Int
  profile_image : Option (Option String)
  account_type : Option Role
  role : Option Role
  is_verified : Option Bool
  joined_date : Option String
deriving DecidableEq, Repr

/-- The patch containing no fields. -/
def emptyPatch : ProfilePatch :=
  ⟨none, none, none, none, none, none, none, none, none⟩

/-- RemoteStore semantics of a row update: overwrite exactly the fields the
patch carries. -/
def applyPatch (p : ProfilePatch) (r : Profile) : Profile :=
  ⟨p.id.getD r.id, p.name.getD r.name, p.tier.getD r.tier,
   p.loyalty_points.getD r.loyalty_points, p.profile_image.getD r.profile_image,
   p.account_type.getD r.account_type, p.role.getD r.role,
   p.is_verified.getD r.is_verified, p.joined_date.getD r.joined_date⟩

/-- RemoteStore semantics of the profiles update issued by updateUser: patch
every row whose id matches the filter. -/
def updateProfilesTable (db : List Profile) (patch : ProfilePatch) (uid : String) :
    List Profile :=
  db.map fun r => if r.id == uid then applyPatch patch r else r

/-- RemoteStore semantics of a single-row select on the profiles table:
succeeds exactly when one row matches the id filter. -/
def selectProfileSingle (db : List Profile) (uid : String) : Option Profile :=
  match db.filter fun r => r.id == uid with
  | [r] => some r
  | _ => none

/-- The reply the store gives to the single-row profile select: the row, or
an error when no single row matches. -/
def storeSingleQuery (db : List Profile) (uid : String) : QueryResult Profile :=
  match selectProfileSingle db uid with
  | some p => .ok (some p)
  | none => .err "PGRST116"

/-- Remote operations the auth provider can issue against the store. -/
inductive AuthOp where
  | updateProfiles (patch : ProfilePatch) (filterId : String)
  | selectProfile (id : String)
deriving DecidableEq, Repr

/-- Observable outcome of signIn: the final local state, the UI alerts shown,
and the error thrown to the caller, if any. -/
structure SignInResult where
  state : AuthState
  alerts : List String
  threw : Option String
deriving DecidableEq, Repr

/-- The signIn operation: loading is set for the duration; a remote error is
shown as a UI alert; nothing is thrown and the user field is untouched. -/
def signIn (st : AuthState) (remoteErr : Option String) : SignInResult :=
  match remoteErr with
  | some msg => ⟨{ st with loading := false }, [msg], none⟩
  | none => ⟨{ st with loading := false }, [], none⟩

/-- Remote reply to a sign-up request: an error with a message, or success
recording whether a user object was returned. -/
inductive SignUpRemote where
  | err (msg : String)
  | ok (hasUser : Bool)
deriving DecidableEq, Repr

/-- Observable outcome of signUp: final state, UI alerts, thrown error, and
the fixed delay waited for the server-side profile trigger. -/
structure SignUpResult where
  state : AuthState
  alerts : List String
  threw : Option String
  waitedMs : Nat
deriving DecidableEq, Repr

/-- The signUp operation: a remote error is shown as a UI alert and the call
returns; on success with a user object it waits 500ms for the profile
trigger; nothing is thrown and the user field is untouched. -/
def signUp (st : AuthState) (remote : SignUpRemote) : SignUpResult :=
  match remote with
  | .err msg => ⟨{ st with loading := false }, [msg], none, 0⟩
  | .ok hasUser => ⟨{ st with loading := false }, [], none, if hasUser then 500 else 0⟩

/-- The remote auth sign-out call as awaited by signOut: it either resolves
(possibly carrying an ignored error value) or the promise rejects. -/
inductive RemoteSignOut where
  | resolves (errVal : Option String)
  | throws (msg : String)
deriving DecidableEq, Repr

/-- Observable outcome of signOut. -/
structure SignOutResult where
  state : AuthState
  threw : Option String
deriving DecidableEq, Repr

/-- The signOut operation: await the remote sign-out, then clear the user;
there is no catch, so a rejection propagates before the user is cleared. -/
def signOut (st : AuthState) (remote : RemoteSignOut) : SignOutResult :=
  match remote with
  | .resolves _ => ⟨{ st with user := none }, none⟩
  | .throws msg => ⟨st, some msg⟩

/-- The updateUser operation: nothing happens without a current user;
otherwise a patch scoped to the current id is issued; on a remote error the
local state is kept; on success the user is replaced by the re-fetched
profile (whatever getProfile yields for the select reply). -/
def updateUser (st : AuthState) (patch : ProfilePatch) (updateErr : Option String)
    (refetch : QueryResult Profile) : AuthState × List AuthOp :=
  match st.user with
  | none => (st, [])
  | some u =>
    match updateErr with
    | some _ => (st, [.updateProfiles patch u.id])
    | none => ({ st with user := getProfile u.email refetch },
               [.updateProfiles patch u.id, .selectProfile u.id])

/-- The patch switchRole submits: each of role and account_type flipped
independently from its own current value. -/
def switchPatch (u : AppUser) : ProfilePatch :=
  { emptyPatch with
      role := some (if u.role = Role.creator then Role.member else Role.creator),
      account_type := some (if u.account_type = Role.creator then Role.member else Role.creator) }

/-- The switchRole operation: nothing happens without a current user;
otherwise it delegates to updateUser with the flip patch. -/
def switchRole (st : AuthState) (updateErr : Option String) (refetch : QueryResult Profile) :
    AuthState × List AuthOp :=
  match st.user with
  | none => (st, [])
  | some u => updateUser st (switchPatch u) updateErr refetch

/-! ## StatsWriter (useUpdateUserStats) -/

/-- The JS string-or-default idiom: an empty message falls back to the
default. -/
def jsOr (s d : String) : String :=
  if s = "" then d else s

/-- The updateStats operation: without an authenticated user id it throws an
Unauthenticated error; a remote-reported error is rethrown with the remote
message (or a default for an empty one); an unexpected throw is rethrown
with its message when it is an Error and a generic message otherwise; on
success the confirmed row is returned. -/
def updateStats (user : Option AppUser) (remote : Completion UserStats) :
    Except String (Option UserStats) :=
  match user with
  | none => .error "User not authenticated"
  | some u =>
    if u.id = "" then .error "User not authenticated"
    else
      match remote with
      | .res (.err msg) => .error (jsOr msg "Failed to update stats")
      | .res (.ok data) => .ok data
      | .thrown (some m) => .error m
      | .thrown none => .error "Unknown error"

end Combined

namespace Combined

/-- C1: for every user identity, if the initial stats fetch returns a remote
error or throws unexpectedly, the resulting stats value is the all-zero
record and the exposed error stays null, with loading cleared. -/
theorem stats_fetch_error_defaults (st : StatsHookState) (msg : String) (e : Option String)
    (h : st.error = none) :
    ((deliverStatsFetch st (.res (.err msg))).stats = some zeroStats ∧
     (deliverStatsFetch st (.res (.err msg))).error = none ∧
     (deliverStatsFetch st (.res (.err msg))).loading = false) ∧
    ((deliverStatsFetch st (.thrown e)).stats = some zeroStats ∧
     (deliverStatsFetch st (.thrown e)).error = none ∧
     (deliverStatsFetch st (.thrown e)).loading = false) :=
  ⟨⟨rfl, rfl, rfl⟩, ⟨rfl, h, rfl⟩⟩

/-- Witness for C1 at the concrete initial hook state. -/
theorem stats_fetch_error_defaults_witness :
    statsInit.error = none ∧
    (((deliverStatsFetch statsInit (.res (.err "boom"))).stats = some zeroStats ∧
      (deliverStatsFetch statsInit (.res (.err "boom"))).error = none ∧
      (deliverStatsFetch statsInit (.res (.err "boom"))).loading = false) ∧
     ((deliverStatsFetch statsInit (.thrown none)).stats = some zeroStats ∧
      (deliverStatsFetch statsInit (.thrown none)).error = none ∧
      (deliverStatsFetch statsInit (.thrown none)).loading = false)) :=
  ⟨rfl, stats_fetch_error_defaults statsInit "boom" none rfl⟩

/-- For a cap of at least one, the slice taken by the INSERT handler is an
ordinary prefix of length cap minus one. -/
theorem jsSliceToEnd_of_one_le (l : List α) (limit : Int) (h : 1 ≤ limit) :
    jsSliceToEnd l (limit - 1) = l.take (limit.toNat - 1) := by
  have h0 : ¬ (limit - 1 < 0) := by omega
  have h1 : (limit - 1).toNat = limit.toNat - 1 := by omega
  simp [jsSliceToEnd, h0, h1]

/-- C4: with a positive configured cap, the activity INSERT handler never
produces more than cap items; and on a list holding exactly cap items it
yields exactly cap items, the new item first, with the oldest item evicted. -/
theorem activity_insert_cap (limit : Int) (prev : List UserActivity) (item : UserActivity)
    (hcap : 1 ≤ limit) :
    (activityInsert limit prev item).length ≤ limit.toNat ∧
    (activityInsert limit prev item).head? = some item ∧
    (prev.length = limit.toNat →
      (activityInsert limit prev item).length = limit.toNat ∧
      activityInsert limit prev item = item :: prev.dropLast) := by
  have hs := jsSliceToEnd_of_one_le prev limit hcap
  have hpos : 1 ≤ limit.toNat := by omega
  refine ⟨?_, rfl, fun hlen => ⟨?_, ?_⟩⟩
  · simp only [activityInsert, hs, List.length_cons, List.length_take]
    omega
  · simp only [activityInsert, hs, List.length_cons, List.length_take]
    omega
  · simp only [activityInsert, hs, List.dropLast_eq_take, hlen]

/-- Witness for C4 at cap ten and a concrete ten-item activity list. -/
theorem activity_insert_cap_witness :
    (1 : Int) ≤ 10 ∧
    ((activityInsert 10 ((List.range 10).map fun n => ⟨toString n, "a", .update, "t"⟩)
        ⟨"new", "b", .follower, "t2"⟩).length ≤ (10 : Int).toNat ∧
     (activityInsert 10 ((List.range 10).map fun n => ⟨toString n, "a", .update, "t"⟩)
        ⟨"new", "b", .follower, "t2"⟩).head? = some ⟨"new", "b", .follower, "t2"⟩ ∧
     (((List.range 10).map fun n => (⟨toString n, "a", .update, "t"⟩ : UserActivity)).length
          = (10 : Int).toNat →
       (activityInsert 10 ((List.range 10).map fun n => ⟨toString n, "a", .update, "t"⟩)
          ⟨"new", "b", .follower, "t2"⟩).length = (10 : Int).toNat ∧
       activityInsert 10 ((List.range 10).map fun n => ⟨toString n, "a", .update, "t"⟩)
          ⟨"new", "b", .follower, "t2"⟩
         = ⟨"new", "b", .follower, "t2"⟩ ::
             ((List.range 10).map fun n => (⟨toString n, "a", .update, "t"⟩ : UserActivity)).dropLast)) :=
  ⟨by decide,
   activity_insert_cap 10 ((List.range 10).map fun n => ⟨toString n, "a", .update, "t"⟩)
     ⟨"new", "b", .follower, "t2"⟩ (by decide)⟩

/-- C7: for the challenges LiveQuery, every delivered subscription event
requests exactly one re-fetch and changes no state; the fetched result set
(which a successful fetch installs verbatim) never exceeds three items and
contains only rows with active status belonging to the current identity. -/
theorem challenges_contract (st : ChallengesHookState) (ev : ChEvent)
    (db : List ChallengeRow) (uid : String) (hsub : st.subscribed = true) :
    deliverChallengesEvent st ev = (st, [HookAction.refetch]) ∧
    (deliverChallengesFetch st (.res (.ok (some (selectChallenges db uid))))).challenges
      = selectChallenges db uid ∧
    (selectChallenges db uid).length ≤ 3 ∧
    ∀ c ∈ selectChallenges db uid, c.status = ChStatus.active ∧ c.user_id = uid := by
  refine ⟨?_, rfl, ?_, ?_⟩
  · simp [deliverChallengesEvent, hsub, challengesOnEvent]
  · exact List.length_take_le 3 _
  · intro c hc
    have hc1 := List.mem_of_mem_take hc
    rw [List.mem_filter] at hc1
    obtain ⟨hc2, hst⟩ := hc1
    rw [List.mem_filter] at hc2
    obtain ⟨_, huid⟩ := hc2
    exact ⟨by simpa using hst, by simpa using huid⟩

/-- A concrete challenges table used to exercise the challenges contract. -/
def sampleChDb : List ChallengeRow :=
  [⟨"c1", "t1", none, 10, "r1", .active, "u1"⟩,
   ⟨"c2", "t2", none, 20, "r2", .completed, "u1"⟩,
   ⟨"c3", "t3", some "d", 30, "r3", .active, "u2"⟩,
   ⟨"c4", "t4", none, 40, "r4", .active, "u1"⟩]

/-- Witness for C7 at a concrete subscribed state, event and table. -/
theorem challenges_contract_witness :
    deliverChallengesEvent ⟨[], false, none, true⟩ ChEvent.insert
      = (⟨[], false, none, true⟩, [HookAction.refetch]) ∧
    (deliverChallengesFetch ⟨[], false, none, true⟩
        (.res (.ok (some (selectChallenges sampleChDb "u1"))))).challenges
      = selectChallenges sampleChDb "u1" ∧
    (selectChallenges sampleChDb "u1").length ≤ 3 ∧
    ∀ c ∈ selectChallenges sampleChDb "u1", c.status = ChStatus.active ∧ c.user_id = "u1" :=
  challenges_contract ⟨[], false, none, true⟩ ChEvent.insert sampleChDb "u1" rfl

/-- C2 counterexample: after teardown of the stats hook, the completion of a
still-pending initial fetch does update state — the hooks track no liveness
flag, so the claimed no-update-after-teardown guarantee fails. -/
theorem liveQuery_no_liveness_flag_cex :
    deliverStatsFetch (statsTeardown statsInit) (.thrown none) ≠ statsTeardown statsInit := by
  intro h
  have hs := congrArg StatsHookState.stats h
  simp [deliverStatsFetch, statsTeardown, statsInit] at hs

/-- C2 amended: after teardown, subscription events no longer change any of
the three hooks (the channel is unsubscribed), but each initial fetch
completion is applied independently of teardown — it commutes with teardown
instead of being suppressed by it, because no liveness flag is checked. -/
theorem liveQuery_teardown_amended (ss : StatsHookState) (sa : ActivityHookState)
    (sc : ChallengesHookState) (limit : Int) :
    (∀ p, deliverStatsEvent (statsTeardown ss) p = statsTeardown ss) ∧
    (∀ p, deliverActivityEvent limit (activityTeardown sa) p = activityTeardown sa) ∧
    (∀ ev, deliverChallengesEvent (challengesTeardown sc) ev = (challengesTeardown sc, [])) ∧
    (∀ c, deliverStatsFetch (statsTeardown ss) c = statsTeardown (deliverStatsFetch ss c)) ∧
    (∀ c, deliverActivityFetch (activityTeardown sa) c
            = activityTeardown (deliverActivityFetch sa c)) ∧
    (∀ c, deliverChallengesFetch (challengesTeardown sc) c
            = challengesTeardown (deliverChallengesFetch sc c)) := by
  refine ⟨?_, ?_, ?_, ?_, ?_, ?_⟩
  · intro p
    simp [deliverStatsEvent, statsTeardown]
  · intro p
    simp [deliverActivityEvent, activityTeardown]
  · intro ev
    simp [deliverChallengesEvent, challengesTeardown]
  · intro c
    cases c with
    | res r =>
      cases r with
      | ok d => cases d <;> rfl
      | err m => rfl
    | thrown e => rfl
  · intro c
    cases c with
    | res r =>
      cases r with
      | ok d => cases d <;> rfl
      | err m => rfl
    | thrown e => rfl
  · intro c
    cases c with
    | res r =>
      cases r with
      | ok d => cases d <;> rfl
      | err m => rfl
    | thrown e => rfl

/-- C3 counterexample: a failing sign-in or sign-up throws nothing back to
its caller — the failure is only shown as a UI alert, so the caller cannot
observe it as a returned or thrown error. -/
theorem signIn_signUp_alert_cex :
    (signIn ⟨none, true⟩ (some "Invalid login credentials")).threw = none ∧
    (signIn ⟨none, true⟩ (some "Invalid login credentials")).alerts
      = ["Invalid login credentials"] ∧
    (signUp ⟨none, true⟩ (.err "User already registered")).threw = none ∧
    (signUp ⟨none, true⟩ (.err "User already registered")).alerts
      = ["User already registered"] :=
  ⟨rfl, rfl, rfl, rfl⟩

/-- C3 amended: on a failing sign-in or sign-up the error message is shown
as a UI alert, nothing is thrown to the caller, the identity is unchanged,
and only the loading flag is touched (ending false). -/
theorem signIn_signUp_failure_behavior (st : AuthState) (msg : String) :
    signIn st (some msg) = ⟨⟨st.user, false⟩, [msg], none⟩ ∧
    signUp st (.err msg) = ⟨⟨st.user, false⟩, [msg], none, 0⟩ :=
  ⟨rfl, rfl⟩

/-- A concrete signed-in application user used by witnesses. -/
def sampleUser : AppUser :=
  ⟨⟨"u1", "Ada", .free, 0, none, .creator, .creator, false, "2024-01-01"⟩, "ada@example.com"⟩

/-- C5: updateStats fails with the Unauthenticated error for a missing
identity; rethrows a remote-reported error with the remote message (or a
default for an empty one); rethrows an unexpected throw with its message
when it is an Error and a generic message otherwise; and on success returns
the confirmed server reply — no failure is silently dropped. -/
theorem updateStats_contract (u : AppUser) (msg m : String) (data : Option UserStats)
    (r : Completion UserStats) (hid : u.id ≠ "") (hmsg : msg ≠ "") :
    updateStats none r = .error "User not authenticated" ∧
    updateStats (some u) (.res (.err msg)) = .error msg ∧
    updateStats (some u) (.res (.err "")) = .error "Failed to update stats" ∧
    updateStats (some u) (.thrown (some m)) = .error m ∧
    updateStats (some u) (.thrown none) = .error "Unknown error" ∧
    updateStats (some u) (.res (.ok data)) = .ok data := by
  refine ⟨rfl, ?_, ?_, ?_, ?_, ?_⟩ <;> simp [updateStats, hid, jsOr, hmsg]

/-- Witness for C5 at a concrete user, messages and reply. -/
theorem updateStats_contract_witness :
    updateStats none (.res (.ok (some zeroStats))) = .error "User not authenticated" ∧
    updateStats (some sampleUser) (.res (.err "row not found")) = .error "row not found" ∧
    updateStats (some sampleUser) (.res (.err "")) = .error "Failed to update stats" ∧
    updateStats (some sampleUser) (.thrown (some "socket hang up")) = .error "socket hang up" ∧
    updateStats (some sampleUser) (.thrown none) = .error "Unknown error" ∧
    updateStats (some sampleUser) (.res (.ok (some zeroStats))) = .ok (some zeroStats) :=
  updateStats_contract sampleUser "row not found" "socket hang up" (some zeroStats)
    (.res (.ok (some zeroStats))) (by decide) (by decide)

/-- C6 counterexample: when the awaited remote sign-out call throws, signOut
propagates the rejection before reaching the user-clearing step, so the
local identity is not cleared to null. -/
theorem signOut_throw_cex :
    (signOut ⟨some sampleUser, false⟩ (.throws "network down")).state.user = some sampleUser ∧
    (signOut ⟨some sampleUser, false⟩ (.throws "network down")).threw = some "network down" :=
  ⟨rfl, rfl⟩

/-- C6 amended: whenever the remote sign-out call resolves — including when
it resolves carrying an error value, which the code ignores — the local
identity is unconditionally cleared to null; when the remote call throws,
the rejection propagates and the prior state is kept unchanged. -/
theorem signOut_behavior (st : AuthState) (errVal : Option String) (msg : String) :
    signOut st (.resolves errVal) = ⟨⟨none, st.loading⟩, none⟩ ∧
    signOut st (.throws msg) = ⟨st, some msg⟩ :=
  ⟨rfl, rfl⟩

/-- C8: updateUser is a no-op (no state change, no remote operation) without
a current identity; otherwise it issues the patch scoped to the current id;
on a remote error the local state is unchanged; on success it installs the
re-fetched profile — the value the store returns for the select, never the
locally-submitted patch. -/
theorem updateUser_contract (st : AuthState) (u : AppUser) (patch : ProfilePatch)
    (db : List Profile) (msg : String) (refetch : QueryResult Profile)
    (hu : st.user = some u) :
    (∀ (s : AuthState) (p : ProfilePatch) (e : Option String) (r : QueryResult Profile),
      s.user = none → updateUser s p e r = (s, [])) ∧
    updateUser st patch (some msg) refetch = (st, [.updateProfiles patch u.id]) ∧
    (updateUser st patch none refetch).2
      = [.updateProfiles patch u.id, .selectProfile u.id] ∧
    (updateUser st patch none refetch).1.user = getProfile u.email refetch ∧
    (updateUser st patch none
        (storeSingleQuery (updateProfilesTable db patch u.id) u.id)).1.user
      = (selectProfileSingle (updateProfilesTable db patch u.id) u.id).map
          fun p => ⟨p, u.email⟩ := by
  refine ⟨?_, ?_, ?_, ?_, ?_⟩
  · intro s p e r hs
    simp [updateUser, hs]
  · simp [updateUser, hu]
  · simp [updateUser, hu]
  · simp [updateUser, hu]
  · cases hsel : selectProfileSingle (updateProfilesTable db patch u.id) u.id <;>
      simp [updateUser, hu, storeSingleQuery, hsel, getProfile]

/-- A concrete name patch used by the updateUser witnesses. -/
def namePatch : ProfilePatch :=
  { emptyPatch with name := some "Bea" }

/-- Witness for C8 at a concrete signed-in state, patch and store. -/
theorem updateUser_contract_witness :
    (∀ (s : AuthState) (p : ProfilePatch) (e : Option String) (r : QueryResult Profile),
      s.user = none → updateUser s p e r = (s, [])) ∧
    updateUser ⟨some sampleUser, false⟩ namePatch (some "boom") (.ok none)
      = (⟨some sampleUser, false⟩, [.updateProfiles namePatch sampleUser.id]) ∧
    (updateUser ⟨some sampleUser, false⟩ namePatch none (.ok none)).2
      = [.updateProfiles namePatch sampleUser.id, .selectProfile sampleUser.id] ∧
    (updateUser ⟨some sampleUser, false⟩ namePatch none (.ok none)).1.user
      = getProfile sampleUser.email (.ok none) ∧
    (updateUser ⟨some sampleUser, false⟩ namePatch none
        (storeSingleQuery (updateProfilesTable [sampleUser.toProfile] namePatch sampleUser.id)
          sampleUser.id)).1.user
      = (selectProfileSingle (updateProfilesTable [sampleUser.toProfile] namePatch sampleUser.id)
          sampleUser.id).map fun p => ⟨p, sampleUser.email⟩ :=
  updateUser_contract ⟨some sampleUser, false⟩ sampleUser namePatch [sampleUser.toProfile]
    "boom" (.ok none) rfl

/-- C10: when the profiles row update succeeds but the profile re-fetch
fails — the select replies with an error or with no row, so getProfile
returns null — updateUser sets the current identity to null. -/
theorem updateUser_refetch_null_clears_user (st : AuthState) (u : AppUser)
    (patch : ProfilePatch) (msg : String) (hu : st.user = some u) :
    (updateUser st patch none (.err msg)).1.user = none ∧
    (updateUser st patch none (.ok none)).1.user = none := by
  constructor <;> simp [updateUser, hu, getProfile]

/-- Witness for C10 at a concrete signed-in state. -/
theorem updateUser_refetch_null_clears_user_witness :
    (updateUser ⟨some sampleUser, true⟩ namePatch none (.err "PGRST116")).1.user = none ∧
    (updateUser ⟨some sampleUser, true⟩ namePatch none (.ok none)).1.user = none :=
  updateUser_refetch_null_clears_user ⟨some sampleUser, true⟩ sampleUser namePatch
    "PGRST116" rfl

/-- A user whose role and account_type disagree: role creator, account_type
member. Nothing in the code prevents such a profile row. -/
def mmUser : AppUser :=
  ⟨⟨"u2", "Max", .premium, 5, none, .member, .creator, true, "2024-02-02"⟩, "max@example.com"⟩

/-- The profiles row of mmUser after the switchRole patch: each field flipped
from its own previous value, so they disagree the other way around. -/
def mmUserAfterRow : Profile :=
  ⟨"u2", "Max", .premium, 5, none, .creator, .member, true, "2024-02-02"⟩

/-- C9 counterexample: for a current identity whose role and account_type
disagree, switchRole flips each field independently, so after the toggle the
two fields still disagree — they do not end up equal to each other. -/
theorem switchRole_coupling_cex :
    (switchRole ⟨some mmUser, false⟩ none
        (storeSingleQuery
          (updateProfilesTable [mmUser.toProfile] (switchPatch mmUser) mmUser.id)
          mmUser.id)).1.user
      = some ⟨mmUserAfterRow, "max@example.com"⟩ ∧
    mmUserAfterRow.role ≠ mmUserAfterRow.account_type :=
  ⟨rfl, by decide⟩

/-- C9 amended: switchRole submits, through updateUser, a patch flipping
role and account_type each from its own current value; whenever the current
identity already has role equal to account_type, the two patched fields are
equal to each other after the toggle (and differ from the old value), also
in the state resulting from the full round-trip through the store. -/
theorem switchRole_coupled (st : AuthState) (u : AppUser) (e : Option String)
    (r : QueryResult Profile) (hu : st.user = some u) (hc : u.role = u.account_type) :
    switchRole st e r = updateUser st (switchPatch u) e r ∧
    (switchPatch u).role
      = some (if u.role = Role.creator then Role.member else Role.creator) ∧
    (switchPatch u).account_type
      = some (if u.account_type = Role.creator then Role.member else Role.creator) ∧
    (applyPatch (switchPatch u) u.toProfile).role
      = (applyPatch (switchPatch u) u.toProfile).account_type ∧
    (applyPatch (switchPatch u) u.toProfile).role ≠ u.role ∧
    (switchRole st none
        (storeSingleQuery (updateProfilesTable [u.toProfile] (switchPatch u) u.id) u.id)).1.user
      = some ⟨applyPatch (switchPatch u) u.toProfile, u.email⟩ := by
  have h1 : updateProfilesTable [u.toProfile] (switchPatch u) u.id
      = [applyPatch (switchPatch u) u.toProfile] := by
    simp [updateProfilesTable]
  have h2 : (applyPatch (switchPatch u) u.toProfile).id = u.toProfile.id := rfl
  have h3 : selectProfileSingle [applyPatch (switchPatch u) u.toProfile] u.id
      = some (applyPatch (switchPatch u) u.toProfile) := by
    simp [selectProfileSingle, List.filter, h2]
  refine ⟨?_, rfl, rfl, ?_, ?_, ?_⟩
  · simp [switchRole, hu]
  · simp [applyPatch, switchPatch, emptyPatch, hc]
  · cases h : u.role <;> simp [applyPatch, switchPatch, emptyPatch, h]
  · simp [switchRole, hu, updateUser, h1, h3, storeSingleQuery, getProfile]

/-- Witness for the amended C9 at a concrete consistent user. -/
theorem switchRole_coupled_witness :
    switchRole ⟨some sampleUser, false⟩ none (.ok none)
      = updateUser ⟨some sampleUser, false⟩ (switchPatch sampleUser) none (.ok none) ∧
    (switchPatch sampleUser).role
      = some (if sampleUser.role = Role.creator then Role.member else Role.creator) ∧
    (switchPatch sampleUser).account_type
      = some (if sampleUser.account_type = Role.creator then Role.member else Role.creator) ∧
    (applyPatch (switchPatch sampleUser) sampleUser.toProfile).role
      = (applyPatch (switchPatch sampleUser) sampleUser.toProfile).account_type ∧
    (applyPatch (switchPatch sampleUser) sampleUser.toProfile).role ≠ sampleUser.role ∧
    (switchRole ⟨some sampleUser, false⟩ none
        (storeSingleQuery
          (updateProfilesTable [sampleUser.toProfile] (switchPatch sampleUser) sampleUser.id)
          sampleUser.id)).1.user
      = some ⟨applyPatch (switchPatch sampleUser) sampleUser.toProfile, sampleUser.email⟩ :=
  switchRole_coupled ⟨some sampleUser, false⟩ sampleUser none (.ok none) rfl rfl

end Combined
